import Mathlib

/-!
A shallow embedding of the HTTP-over-netpoll response emission layer:
the `ResponseWriter` state machine (`pkg/adaptor`), the pooled
`RequestContext` reset discipline (`pkg/appcontext`), and the
per-connection request loop (`pkg/engine`).

Modelling conventions:
* Bytes are modelled as `String` (ASCII byte = char).
* `http.Header` (a Go `map[string][]string`) is an association list with
  distinct keys; Go's randomized map iteration order is determinized to
  list order (all properties proved are order-insensitive).  All header
  keys appearing in the code are already in Go's canonical MIME form, so
  canonicalization is the identity here.
* The netpoll transport is modelled as infallible: every `WriteBinary`,
  `WriteString` and `Flush` succeeds and appends to an output trace.
  The emitted header block is kept structured (`OutItem.headerBlock`);
  `renderItem` gives the exact bytes the Go code serializes it to.
* `time.Now()` (for the `Date` header) and `http.DetectContentType`
  (content sniffing) are external collaborators, supplied through `Env`.
* `bytebufferpool.Put` calls are counted in an explicit counter so that
  the buffer check-in discipline can be stated.
-/

namespace HttpOverNetpoll

/-- Go `map[string][]string` (`http.Header`) as an association list with
distinct keys. -/
abbrev Header := List (String × List String)

/-- `http.Header.Get`: first value for the key, or `""` when absent or
when the value list is empty. -/
def hGet (h : Header) (k : String) : String :=
  match h.find? (fun p => p.1 == k) with
  | some (_, v :: _) => v
  | _ => ""

/-- Go map key-presence test (`_, ok := m[k]`). -/
def hHas (h : Header) (k : String) : Bool :=
  h.any (fun p => p.1 == k)

/-- `http.Header.Set`: replace all values of the key by a single value. -/
def hSet (h : Header) (k v : String) : Header :=
  if hHas h k then h.map (fun p => if p.1 == k then (k, [v]) else p)
  else h ++ [(k, [v])]

/-- `http.Header.Del`: remove the key entirely. -/
def hDel (h : Header) (k : String) : Header :=
  h.filter (fun p => p.1 != k)

/-- The (key, value) pairs emitted by `for k, v := range h { for _, vv := range v ... }`. -/
def hPairs (h : Header) : List (String × String) :=
  h.flatMap (fun p => p.2.map (fun v => (p.1, v)))

/-- The part of a parsed `*http.Request` the writer and the loop consume. -/
structure HttpRequest where
  proto : String
  close : Bool
  connectionHeader : String
deriving Repr, DecidableEq

/-- External collaborators: `time.Now().UTC().Format(http.TimeFormat)` and
`http.DetectContentType` (applied to at most the first 512 body bytes). -/
structure Env where
  now : String
  detectContentType : String → String

/-- One item written to the netpoll transport.  A `headerBlock` is the
single `WriteBinary(buf.Bytes())` of `writeHeaders` kept structured;
`raw` is a `WriteString`/`WriteBinary` payload; `flush` is `Flush()`. -/
inductive OutItem where
  | headerBlock (proto : String) (status : Int) (fields : List (String × String))
  | raw (s : String)
  | flush
deriving Repr, DecidableEq

/-- Exact bytes of one output item, as the Go code serializes it:
status line `"<proto> <code> <reason>\r\n"`, then one `"<k>: <v>\r\n"`
line per field, then the blank line. -/
def renderItem (statusText : Int → String) : OutItem → String
  | .headerBlock proto status fields =>
      proto ++ " " ++ toString status ++ " " ++ statusText status ++ "\r\n" ++
      String.join (fields.map (fun p => p.1 ++ ": " ++ p.2 ++ "\r\n")) ++ "\r\n"
  | .raw s => s
  | .flush => ""

/-- `net/http.StatusText` restricted to the codes used in this
development (it returns `""` for unknown codes). -/
def statusText (s : Int) : String :=
  if s = 200 then "OK"
  else if s = 201 then "Created"
  else if s = 204 then "No Content"
  else if s = 304 then "Not Modified"
  else if s = 404 then "Not Found"
  else if s = 500 then "Internal Server Error"
  else ""

/-- `rw.statusCode >= 100 && rw.statusCode < 200 || rw.statusCode == 204 || rw.statusCode == 304`. -/
def noBodyStatus (s : Int) : Bool :=
  (decide (100 ≤ s) && decide (s < 200)) || s == 204 || s == 304

/-- `var errHijacked = errors.New("connection has been hijacked")`. -/
def errHijacked : String := "connection has been hijacked"

/-- `strconv.FormatInt(n, 16)` digits, most significant first.  The first
argument is fuel bounding the recursion depth; `n` itself is always
enough fuel since `n / 16 < n` for `n > 0`. -/
def toHexCore : Nat → Nat → List Char → List Char
  | 0, _, acc => acc
  | fuel + 1, n, acc =>
      if n = 0 then acc
      else toHexCore fuel (n / 16)
        ((if n % 16 < 10 then Char.ofNat (48 + n % 16) else Char.ofNat (87 + n % 16)) :: acc)

/-- `strconv.FormatInt(int64 n, 16)`: lowercase hexadecimal. -/
def toHex (n : Nat) : String :=
  if n = 0 then "0" else String.mk (toHexCore n n [])

/-- The `adaptor.ResponseWriter` state: the owning context and request are
opaque references (`none` models a nil pointer), `body = none` models a
nil `*bytebufferpool.ByteBuffer`. -/
structure ResponseWriter where
  ctx : Option Nat
  req : Option HttpRequest
  header : Header
  statusCode : Int
  wroteHeader : Bool
  hijacked : Bool
  chunked : Bool
  body : Option String
deriving Repr, DecidableEq

/-- `rwPool.New`: a brand-new pooled writer with an empty header map. -/
def poolNewWriter : ResponseWriter :=
  { ctx := none
    req := none
    header := []
    statusCode := 0
    wroteHeader := false
    hijacked := false
    chunked := false
    body := none }

/-- `NewResponseWriter(ctx, req)`: rebinds a pooled writer — the header
map is NOT reallocated (it was cleared in `Release`), flags and status
are reset, and a fresh (empty) body buffer is taken from
`bytebufferpool.Get()`. -/
def NewResponseWriter (pooled : ResponseWriter) (ctx : Nat) (req : HttpRequest) : ResponseWriter :=
  { pooled with
      ctx := some ctx
      req := some req
      statusCode := 0
      wroteHeader := false
      hijacked := false
      chunked := false
      body := some "" }

/-- `(*ResponseWriter).Release()`: clears ctx/req, returns the body buffer
to the pool when non-nil (the returned `Nat` counts `bytebufferpool.Put`
calls), and clears the header map.  Flags and status are left as they
are — `NewResponseWriter` resets them on the next checkout. -/
def ResponseWriter.Release (rw : ResponseWriter) : ResponseWriter × Nat :=
  let puts : Nat := if rw.body.isSome then 1 else 0
  ({ rw with ctx := none, req := none, body := none, header := [] }, puts)

/-- `(*ResponseWriter).WriteHeader(statusCode)`. -/
def ResponseWriter.WriteHeader (rw : ResponseWriter) (code : Int) : ResponseWriter :=
  if rw.wroteHeader || rw.hijacked then rw else { rw with statusCode := code }

/-- `rw.Header().Set(k, v)` as performed by a handler. -/
def ResponseWriter.setHeader (rw : ResponseWriter) (k v : String) : ResponseWriter :=
  { rw with header := hSet rw.header k v }

/-- `(*ResponseWriter).Write(p)`: returns the new state, the byte count
and the error.  `rw.body` is non-nil whenever `Write` is reachable (a nil
body would panic in Go); the model leaves a nil body unchanged. -/
def ResponseWriter.Write (rw : ResponseWriter) (p : String) :
    ResponseWriter × Nat × Option String :=
  if rw.hijacked then (rw, 0, some errHijacked)
  else
    let rw := if !rw.wroteHeader && rw.statusCode == 0 then { rw with statusCode := 200 } else rw
    ({ rw with body := rw.body.map (· ++ p) }, p.length, none)

/-- `(*ResponseWriter).writeHeaders(writer, isStreaming)`: the single
header-commit pass.  Ensures `Date`, sniffs `Content-Type` from at most
512 buffered bytes, then either declares `Transfer-Encoding: chunked`
(stripping `Content-Length` and any map-level `Transfer-Encoding`) or
defaults `Content-Length` to the buffered length for body-bearing
statuses (stripping `Transfer-Encoding`), and emits the block. -/
def writeHeaders (env : Env) (rw : ResponseWriter) (isStreaming : Bool) :
    ResponseWriter × List OutItem :=
  if rw.wroteHeader then (rw, [])
  else
    let rw1 := { rw with wroteHeader := true }
    let bodyBytes := rw1.body.getD ""
    let h := rw1.header
    let h := if hGet h "Date" == "" then hSet h "Date" env.now else h
    let h := if hGet h "Content-Type" == "" && bodyBytes.length > 0 then
               hSet h "Content-Type" (env.detectContentType (bodyBytes.take 512))
             else h
    let proto := (rw1.req.map HttpRequest.proto).getD ""
    let noBody := noBodyStatus rw1.statusCode
    if isStreaming && !noBody then
      let h2 := hDel (hDel h "Content-Length") "Transfer-Encoding"
      ({ rw1 with chunked := true, header := h2 },
       [OutItem.headerBlock proto rw1.statusCode
          (("Transfer-Encoding", "chunked") :: hPairs h2)])
    else
      let h2 := if hGet h "Content-Length" == "" && !noBody then
                  hSet h "Content-Length" (toString bodyBytes.length)
                else h
      let h2 := hDel h2 "Transfer-Encoding"
      ({ rw1 with header := h2 },
       [OutItem.headerBlock proto rw1.statusCode (hPairs h2)])

/-- `(*ResponseWriter).Flush()`: commits the headers with
`isStreaming = true` when uncommitted (defaulting the status to 200),
then — unconditionally on the framing mode — wraps any buffered bytes in
one chunk frame, resets the buffer, and flushes the transport. -/
def ResponseWriter.Flush (env : Env) (rw : ResponseWriter) :
    ResponseWriter × List OutItem :=
  if rw.hijacked then (rw, [])
  else
    let (rw1, items1) :=
      if !rw.wroteHeader then
        let rw0 := if rw.statusCode == 0 then { rw with statusCode := 200 } else rw
        writeHeaders env rw0 true
      else (rw, [])
    let b := rw1.body.getD ""
    let (rw2, items2) :=
      if b.length > 0 then
        ({ rw1 with body := some "" },
         [OutItem.raw (toHex b.length ++ "\r\n"), OutItem.raw b, OutItem.raw "\r\n"])
      else (rw1, [])
    (rw2, items1 ++ items2 ++ [OutItem.flush])

/-- `(*ResponseWriter).Hijack()`: fails only when already hijacked; there
is no header-commit check in the source.  The returned `Option String`
is the error. -/
def ResponseWriter.Hijack (rw : ResponseWriter) : ResponseWriter × Option String :=
  if rw.hijacked then (rw, some errHijacked)
  else ({ rw with hijacked := true }, none)

/-- `(*ResponseWriter).EndResponse()`: the result is the new state, the
output trace, and the number of `bytebufferpool.Put` calls made.  On the
hijack path the buffer is checked in but `rw.body` is NOT cleared; on
the normal path the headers are committed if pending (with
`isStreaming` true only when the map already says
`Transfer-Encoding: chunked`), the buffered body is emitted chunk-framed
plus zero chunk (chunked mode) or verbatim (fixed mode) unless the
status forbids a body, the buffer is checked in and cleared, and the
transport is flushed.  Transport writes are infallible in this model, so
the Go early-return on a failed `WriteBinary` is unreachable. -/
def ResponseWriter.EndResponse (env : Env) (rw : ResponseWriter) :
    ResponseWriter × List OutItem × Nat :=
  if rw.hijacked then
    (rw, [], 1)
  else
    let isStreaming := hGet rw.header "Transfer-Encoding" == "chunked"
    let (rw1, items1) :=
      if !rw.wroteHeader then
        let rw0 := if rw.statusCode == 0 then { rw with statusCode := 200 } else rw
        writeHeaders env rw0 isStreaming
      else (rw, [])
    let noBody := noBodyStatus rw1.statusCode
    let b := rw1.body.getD ""
    if rw1.chunked then
      let items2 := if !noBody && b.length > 0 then
          [OutItem.raw (toHex b.length ++ "\r\n"), OutItem.raw b, OutItem.raw "\r\n"]
        else []
      ({ rw1 with body := none },
       items1 ++ items2 ++ [OutItem.raw "0\r\n\r\n", OutItem.flush], 1)
    else
      let items2 := if !noBody && b.length > 0 then [OutItem.raw b] else []
      ({ rw1 with body := none }, items1 ++ items2 ++ [OutItem.flush], 1)

/-- `(*ResponseWriter).ReadFrom(r)`: the source is modelled as the list
of its successful `Read` results (each at most the 32KB copy buffer),
followed by EOF; read errors are not modelled.  On first use it commits
the headers — chunked unless `Content-Length` is present as a map key,
with an explicit map-level `Transfer-Encoding: chunked` overriding —
and flushes them.  In chunked mode every block is framed
`"<hex>\r\n<bytes>\r\n"` and flushed; otherwise the copy goes through
`netpollWriterWrapper`, which flushes after every write (netpoll's
writer does not implement `io.ReaderFrom` as of v0.7.2). -/
def ResponseWriter.ReadFrom (env : Env) (rw : ResponseWriter) (chunks : List String) :
    ResponseWriter × List OutItem × Option String :=
  if rw.hijacked then (rw, [], some errHijacked)
  else
    let (rw1, items1) :=
      if !rw.wroteHeader then
        let rw0 := if rw.statusCode == 0 then { rw with statusCode := 200 } else rw
        let hasCL := hHas rw0.header "Content-Length"
        let hasChunked := hGet rw0.header "Transfer-Encoding" == "chunked"
        let shouldChunk := (!hasCL && !hasChunked) || hasChunked
        let (rwH, hitems) := writeHeaders env rw0 shouldChunk
        (rwH, hitems ++ [OutItem.flush])
      else (rw, [])
    if rw1.chunked then
      let items2 := (chunks.filter (fun c => c.length > 0)).flatMap
        (fun c => [OutItem.raw (toHex c.length ++ "\r\n"), OutItem.raw c,
                   OutItem.raw "\r\n", OutItem.flush])
      (rw1, items1 ++ items2 ++ [OutItem.flush], none)
    else
      let items2 := (chunks.filter (fun c => c.length > 0)).flatMap
        (fun c => [OutItem.raw c, OutItem.flush])
      (rw1, items1 ++ items2, none)

/-- The request attributes `engine.ServeConn` consults to decide
keep-alive: `req.Close` and `req.Header.Get("Connection")`. -/
structure GoRequest where
  close : Bool
  connectionHeader : String
deriving Repr, DecidableEq

/-- `req.Close || req.Header.Get("Connection") == "close"`. -/
def closeIntent (req : GoRequest) : Bool :=
  req.close || req.connectionHeader == "close"

/-- The outcome of one `handleRequest` call as seen by `ServeConn`:
a non-nil error, or a finalized request plus the hijack flag. -/
inductive HandleOutcome where
  | failure
  | success (req : GoRequest) (hijacked : Bool)

/-- Why the `ServeConn` loop ended. -/
inductive TermReason where
  | handleError
  | hijackedWait
  | closeRequested
  | inputEnded
deriving Repr, DecidableEq

/-- `engine.ServeConn` driven by a script of `handleRequest` outcomes:
returns how many request cycles completed without error or hijack
(each cycle drains the body and releases the pooled context) and why the
loop ended.  An exhausted script models the parser blocking on EOF. -/
def serveConn : List HandleOutcome → Nat × TermReason
  | [] => (0, TermReason.inputEnded)
  | HandleOutcome.failure :: _ => (0, TermReason.handleError)
  | HandleOutcome.success req hij :: rest =>
      if hij then (0, TermReason.hijackedWait)
      else if closeIntent req then (1, TermReason.closeRequested)
      else
        let r := serveConn rest
        (r.1 + 1, r.2)

/-- The panic-recovery path of `engine.handleRequest`: `recover()` fires,
the fault is logged, `respWriter.WriteHeader(500)` is called, and the
loop proceeds to `EndResponse`. -/
def recoverThenEnd (env : Env) (rw : ResponseWriter) :
    ResponseWriter × List OutItem × Nat :=
  ResponseWriter.EndResponse env (ResponseWriter.WriteHeader rw 500)

/-- A concrete environment for witnesses and counterexamples: a fixed
clock and the sniff result `http.DetectContentType` actually returns for
short plain text. -/
def env0 : Env :=
  { now := "Sat, 11 Oct 2025 00:00:00 GMT"
    detectContentType := fun _ => "text/plain; charset=utf-8" }

/-- A concrete HTTP/1.1 request for witnesses and counterexamples. -/
def req0 : HttpRequest :=
  { proto := "HTTP/1.1", close := false, connectionHeader := "" }

/-- A freshly acquired writer bound to `req0`. -/
def rwFresh : ResponseWriter := NewResponseWriter poolNewWriter 1 req0


/-! ## Helper lemmas about the header map -/

/-- A key absent from the map contributes no emitted pair. -/
lemma notMem_hPairs_of_hHas_false (h : Header) (k v : String)
    (hh : hHas h k = false) : (k, v) ∉ hPairs h := by
  induction h with
  | nil => simp [hPairs]
  | cons p t ih =>
    simp only [hHas, List.any_cons, Bool.or_eq_false_iff] at hh
    simp only [hPairs, List.flatMap_cons, List.mem_append, List.mem_map]
    rintro (⟨w, _, hw⟩ | hmem)
    · have : p.1 = k := congrArg Prod.fst hw
      simp [this] at hh
    · exact ih hh.2 hmem

/-- Deleting a key removes it. -/
lemma hHas_hDel_self (h : Header) (k : String) : hHas (hDel h k) k = false := by
  induction h with
  | nil => rfl
  | cons p t ih =>
    by_cases hp : p.1 = k
    · simp [hDel, hHas, hp]
    · simp [hDel, hHas, List.filter_cons, hp]

/-- Deleting one key leaves the presence of another unchanged. -/
lemma hHas_hDel_other (h : Header) (k k' : String) (hne : k ≠ k') :
    hHas (hDel h k') k = hHas h k := by
  induction h with
  | nil => rfl
  | cons p t ih =>
    by_cases hp : p.1 = k'
    · have hk'k : (k' == k) = false := beq_eq_false_iff_ne.mpr fun e => hne e.symm
      simp only [hDel, hHas, List.filter_cons, hp, List.any_cons, bne_self_eq_false,
        Bool.false_and]
      rw [if_neg Bool.false_ne_true, hk'k, Bool.false_or]
      exact ih
    · simp only [hDel, hHas, List.filter_cons, List.any_cons]
      rw [if_pos (by simp [hp]), List.any_cons]
      have ih' := ih
      unfold hHas hDel at ih'
      rw [ih']

/-- Setting one key leaves the presence of another unchanged. -/
lemma hHas_hSet_other (h : Header) (k k' v : String) (hne : k ≠ k') :
    hHas (hSet h k' v) k = hHas h k := by
  have hk'k : (k' == k) = false := beq_eq_false_iff_ne.mpr fun e => hne e.symm
  unfold hSet
  by_cases hmem : hHas h k' = true
  · rw [if_pos hmem]
    unfold hHas
    rw [List.any_map]
    have hfun : ((fun q : String × List String => q.1 == k) ∘
        (fun p : String × List String => if p.1 == k' then (k', [v]) else p)) =
        (fun p : String × List String => p.1 == k) := by
      funext p
      by_cases hp : p.1 = k'
      · simp [Function.comp, hp, hk'k]
      · simp [Function.comp, hp]
    rw [hfun]
  · rw [if_neg hmem]
    unfold hHas
    rw [List.any_append]
    simp [hk'k]

/-- No-body statuses are never the unset status 0. -/
lemma noBodyStatus_beq_zero_false {s : Int} (hnb : noBodyStatus s = true) :
    (s == 0) = false := by
  rcases Bool.eq_false_or_eq_true (s == 0) with h0 | h0
  · have hs : s = 0 := by exact_mod_cast beq_iff_eq.mp h0
    rw [hs] at hnb
    exact absurd hnb (by decide)
  · exact h0

/-! ## Characterizations of the header-commit pass -/

/-- `writeHeaders` with the non-streaming branch taken (either
`isStreaming` is false or the status forbids a body): the block carries
the writer's status, the emitted fields contain no `Transfer-Encoding`
(it is stripped), contain no `Content-Length` when the caller set none
and the status forbids a body, and the framing mode, status, body and
references are untouched while `wroteHeader` flips. -/
lemma writeHeaders_else (env : Env) (rw : ResponseWriter) (s : Bool) (r : HttpRequest)
    (hw : rw.wroteHeader = false) (hr : rw.req = some r)
    (hcond : (s && !noBodyStatus rw.statusCode) = false) :
    ∃ fs, (writeHeaders env rw s).2 = [OutItem.headerBlock r.proto rw.statusCode fs]
      ∧ (∀ v, ("Transfer-Encoding", v) ∉ fs)
      ∧ (hHas rw.header "Content-Length" = false → noBodyStatus rw.statusCode = true →
          ∀ v, ("Content-Length", v) ∉ fs)
      ∧ (writeHeaders env rw s).1.chunked = rw.chunked
      ∧ (writeHeaders env rw s).1.statusCode = rw.statusCode
      ∧ (writeHeaders env rw s).1.wroteHeader = true
      ∧ (writeHeaders env rw s).1.body = rw.body
      ∧ (writeHeaders env rw s).1.req = rw.req
      ∧ (writeHeaders env rw s).1.hijacked = rw.hijacked := by
  unfold writeHeaders
  rw [if_neg (by simp [hw])]
  simp only [hcond, Bool.false_eq_true, if_false, hr, Option.map_some', Option.getD_some]
  refine ⟨_, rfl, ?_, ?_, trivial, trivial, trivial, trivial, trivial, trivial⟩
  · intro v
    exact notMem_hPairs_of_hHas_false _ _ _ (hHas_hDel_self _ _)
  · intro hcl hnb v
    apply notMem_hPairs_of_hHas_false
    rw [hHas_hDel_other _ _ _ (by decide)]
    simp only [hnb, Bool.not_true, Bool.and_false, Bool.false_eq_true, if_false]
    split
    · split
      · rw [hHas_hSet_other _ _ _ _ (by decide), hHas_hSet_other _ _ _ _ (by decide)]
        exact hcl
      · rw [hHas_hSet_other _ _ _ _ (by decide)]
        exact hcl
    · split
      · rw [hHas_hSet_other _ _ _ _ (by decide)]
        exact hcl
      · exact hcl

/-- `writeHeaders` with the streaming branch taken (`isStreaming` true
and a body-bearing status): the chunked flag is set and the block opens
with the literal `Transfer-Encoding: chunked` line. -/
lemma writeHeaders_streaming (env : Env) (rw : ResponseWriter) (r : HttpRequest)
    (hw : rw.wroteHeader = false) (hr : rw.req = some r)
    (hnb : noBodyStatus rw.statusCode = false) :
    ∃ fs, (writeHeaders env rw true).2 =
        [OutItem.headerBlock r.proto rw.statusCode (("Transfer-Encoding", "chunked") :: fs)]
      ∧ (writeHeaders env rw true).1.chunked = true
      ∧ (writeHeaders env rw true).1.statusCode = rw.statusCode
      ∧ (writeHeaders env rw true).1.wroteHeader = true
      ∧ (writeHeaders env rw true).1.body = rw.body
      ∧ (writeHeaders env rw true).1.req = rw.req
      ∧ (writeHeaders env rw true).1.hijacked = rw.hijacked := by
  unfold writeHeaders
  rw [if_neg (by simp [hw])]
  simp only [hnb, Bool.not_false, Bool.and_true, Bool.true_and, if_true, hr,
    Option.map_some', Option.getD_some]
  exact ⟨_, rfl, trivial, trivial, trivial, trivial, trivial, trivial⟩

/-- Whatever branch is taken, an uncommitted `writeHeaders` emits exactly
one header block, carrying the request's protocol token and the writer's
current status code. -/
lemma writeHeaders_emits_status (env : Env) (rw : ResponseWriter) (s : Bool)
    (r : HttpRequest) (hw : rw.wroteHeader = false) (hr : rw.req = some r) :
    ∃ fs, (writeHeaders env rw s).2 = [OutItem.headerBlock r.proto rw.statusCode fs] := by
  unfold writeHeaders
  rw [if_neg (by simp [hw])]
  simp only [hr, Option.map_some', Option.getD_some]
  split
  · exact ⟨_, rfl⟩
  · exact ⟨_, rfl⟩

/-! ## Claim theorems -/

/-- C1: the claim says a writer with no explicit `Content-Length` and no
prior `Flush` is finalized in chunked mode.  The code disagrees: since
`EndResponse` selects streaming only when the header map already says
`Transfer-Encoding: chunked`, the default for a plain
`Write("hello"); EndResponse()` is a fixed-length response with a
computed `Content-Length: 5`, an unframed body and no zero chunk —
contradicting the repository's own `TestNormalResponse`. -/
theorem c1_endresponse_defaults_to_fixed_length :
    (ResponseWriter.EndResponse env0 (rwFresh.Write "hello").1).2.1 =
      [OutItem.headerBlock "HTTP/1.1" 200
        [("Date", "Sat, 11 Oct 2025 00:00:00 GMT"),
         ("Content-Type", "text/plain; charset=utf-8"),
         ("Content-Length", "5")],
       OutItem.raw "hello", OutItem.flush] := by decide

/-- C2: the claim (and the repository's `TestHijack_AfterWrite`) says
`Hijack` after the headers were committed fails and leaves `hijacked`
false.  The code only checks the `hijacked` flag: after
`Write; Flush` has committed the headers, `Hijack` still returns no
error and flips `hijacked` to true. -/
theorem c2_hijack_after_commit_succeeds :
    (ResponseWriter.Flush env0 (rwFresh.Write "trigger headers").1).1.wroteHeader = true
    ∧ ((ResponseWriter.Flush env0 (rwFresh.Write "trigger headers").1).1.Hijack).2 = none
    ∧ ((ResponseWriter.Flush env0 (rwFresh.Write "trigger headers").1).1.Hijack).1.hijacked
        = true := by decide

/-- C3 counterexample: a handler buffers `"oops"` via `Write` and then
panics before any commit.  The recovery path sets status 500, but
`EndResponse` still emits the buffered `"oops"` as the response body
(with `Content-Length: 4`), so the claim's "contains no body bytes,
regardless of what the handler buffered" is false. -/
theorem c3_buffered_body_not_discarded :
    (recoverThenEnd env0 (rwFresh.Write "oops").1).2.1 =
      [OutItem.headerBlock "HTTP/1.1" 500
        [("Date", "Sat, 11 Oct 2025 00:00:00 GMT"),
         ("Content-Type", "text/plain; charset=utf-8"),
         ("Content-Length", "4")],
       OutItem.raw "oops", OutItem.flush] := by decide

/-- C4 counterexample: status 204 set before commit with an explicitly
set `Content-Length: 5` and a buffered body.  `EndResponse` does emit no
`Transfer-Encoding` and no body bytes, but the explicit `Content-Length`
header is preserved and emitted, so the claim's "no Content-Length
header … regardless of any Content-Length header the caller set
explicitly" is false. -/
theorem c4_explicit_content_length_survives_204 :
    (ResponseWriter.EndResponse env0
        (((rwFresh.WriteHeader 204).setHeader "Content-Length" "5").Write "hello").1).2.1 =
      [OutItem.headerBlock "HTTP/1.1" 204
        [("Content-Length", "5"),
         ("Date", "Sat, 11 Oct 2025 00:00:00 GMT"),
         ("Content-Type", "text/plain; charset=utf-8")],
       OutItem.flush] := by decide

/-- C5 counterexample: `SetStatus(201)` followed by `SetStatus(404)`
before any commit.  The claim says the first call wins and 201 is
emitted; the code overwrites and emits 404. -/
theorem c5_second_setstatus_overwrites :
    (ResponseWriter.EndResponse env0 ((rwFresh.WriteHeader 201).WriteHeader 404)).2.1 =
      [OutItem.headerBlock "HTTP/1.1" 404
        [("Date", "Sat, 11 Oct 2025 00:00:00 GMT"), ("Content-Length", "0")],
       OutItem.flush] := by decide

/-- C6 counterexample: `Content-Length: 3` set explicitly before the
first commit, together with an explicit `Transfer-Encoding: chunked` and
the 5-byte body `"hello"`.  `EndResponse` emits
`Transfer-Encoding: chunked` and a chunk-framed body, so the claim's
"never emits Transfer-Encoding: chunked … single unframed fixed-length
block matching that declared length" is false (the explicit
`Transfer-Encoding` overrides, and nothing checks the declared 3 against
the 5 buffered bytes). -/
theorem c6_explicit_te_overrides_content_length :
    (ResponseWriter.EndResponse env0
        ((((rwFresh.setHeader "Content-Length" "3").setHeader
            "Transfer-Encoding" "chunked").Write "hello").1)).2.1 =
      [OutItem.headerBlock "HTTP/1.1" 200
        [("Transfer-Encoding", "chunked"),
         ("Date", "Sat, 11 Oct 2025 00:00:00 GMT"),
         ("Content-Type", "text/plain; charset=utf-8")],
       OutItem.raw "5\r\n", OutItem.raw "hello", OutItem.raw "\r\n",
       OutItem.raw "0\r\n\r\n", OutItem.flush] := by decide

/-- C7 counterexample: a writer committed in fixed-length mode (explicit
`Content-Length: 3`, `ReadFrom` streamed `"abc"`, `chunked` is false)
buffers `"xy"` and calls `Flush`.  The claim says the buffered bytes are
emitted verbatim in fixed-length mode; the code emits them wrapped in a
chunk frame `"2\r\nxy\r\n"` regardless of the mode. -/
theorem c7_flush_chunk_frames_in_fixed_mode :
    (((ResponseWriter.ReadFrom env0 (rwFresh.setHeader "Content-Length" "3")
        ["abc"]).1.Write "xy").1.chunked = false)
    ∧ (ResponseWriter.Flush env0
        ((ResponseWriter.ReadFrom env0 (rwFresh.setHeader "Content-Length" "3")
          ["abc"]).1.Write "xy").1).2 =
        [OutItem.raw "2\r\n", OutItem.raw "xy", OutItem.raw "\r\n", OutItem.flush] := by
  decide

/-- C9: a writer acquired through `NewResponseWriter` right after a
`Release` starts the cycle fresh: status 0, all three flags false, an
empty header map, an empty body buffer, and the new request's
references — nothing observable survives from the previous cycle. -/
theorem c9_fresh_writer_state (prev : ResponseWriter) (c : Nat) (r : HttpRequest) :
    (NewResponseWriter (prev.Release).1 c r).statusCode = 0
    ∧ (NewResponseWriter (prev.Release).1 c r).wroteHeader = false
    ∧ (NewResponseWriter (prev.Release).1 c r).hijacked = false
    ∧ (NewResponseWriter (prev.Release).1 c r).chunked = false
    ∧ (NewResponseWriter (prev.Release).1 c r).header = []
    ∧ (NewResponseWriter (prev.Release).1 c r).ctx = some c
    ∧ (NewResponseWriter (prev.Release).1 c r).req = some r
    ∧ (NewResponseWriter (prev.Release).1 c r).body = some "" := by
  exact ⟨rfl, rfl, rfl, rfl, rfl, rfl, rfl, rfl⟩

/-- C10: the claim says every `EndResponse` path that returns the body
buffer to the pool also clears `rw.body`, so `Release` cannot check the
same buffer in twice.  On the hijack path the code calls
`bytebufferpool.Put(rw.body)` but leaves `rw.body` set, so the
subsequent `Release` puts the identical buffer a second time: two
check-ins of one buffer in one request cycle. -/
theorem c10_hijack_path_double_put :
    (ResponseWriter.EndResponse env0 rwFresh.Hijack.1).1.body = some ""
    ∧ (ResponseWriter.EndResponse env0 rwFresh.Hijack.1).2.2
        + (ResponseWriter.EndResponse env0 rwFresh.Hijack.1).1.Release.2 = 2 := by decide

/-- C8: for a script of finalized, non-hijacked requests, the connection
loop keeps serving on the same transport exactly until the first request
with close intent (`req.Close` or `Connection: close`): every preceding
request completes a full cycle (drain + release) and the loop terminates
right after the closing one, untouched script suffix included. -/
theorem c8_keepalive_until_close (reqs : List GoRequest) (lastReq : GoRequest)
    (rest : List HandleOutcome)
    (hAll : ∀ q ∈ reqs, closeIntent q = false)
    (hLast : closeIntent lastReq = true) :
    serveConn (reqs.map (fun q => HandleOutcome.success q false)
        ++ HandleOutcome.success lastReq false :: rest)
      = (reqs.length + 1, TermReason.closeRequested) := by
  induction reqs with
  | nil => simp [serveConn, hLast]
  | cons q t ih =>
    have hq : closeIntent q = false := hAll q (by simp)
    have ht : ∀ p ∈ t, closeIntent p = false := fun p hp => hAll p (by simp [hp])
    simp [serveConn, hq, ih ht]

/-- C8 witness: two sequential requests, the first without close intent,
the second carrying `Connection: close` — both are processed and the
loop closes after the second, matching the spec's end-to-end scenario. -/
theorem c8_keepalive_until_close_witness :
    serveConn [HandleOutcome.success { close := false, connectionHeader := "" } false,
               HandleOutcome.success { close := false, connectionHeader := "close" } false]
      = (2, TermReason.closeRequested) := by
  have h := c8_keepalive_until_close [{ close := false, connectionHeader := "" }]
    { close := false, connectionHeader := "close" } []
    (by intro q hq; simp at hq; subst hq; decide) (by decide)
  simpa using h

/-- `WriteHeader` folded over a pre-commit, non-hijacked writer: the last
code written lands in `statusCode` and nothing else changes. -/
lemma foldl_WriteHeader_state (cs : List Int) (cLast : Int) (rw : ResponseWriter)
    (hw : rw.wroteHeader = false) (hh : rw.hijacked = false) :
    ((cs ++ [cLast]).foldl ResponseWriter.WriteHeader rw).statusCode = cLast
    ∧ ((cs ++ [cLast]).foldl ResponseWriter.WriteHeader rw).wroteHeader = false
    ∧ ((cs ++ [cLast]).foldl ResponseWriter.WriteHeader rw).hijacked = false
    ∧ ((cs ++ [cLast]).foldl ResponseWriter.WriteHeader rw).req = rw.req
    ∧ ((cs ++ [cLast]).foldl ResponseWriter.WriteHeader rw).chunked = rw.chunked
    ∧ ((cs ++ [cLast]).foldl ResponseWriter.WriteHeader rw).body = rw.body := by
  induction cs generalizing rw with
  | nil =>
    simp only [List.nil_append, List.foldl_cons, List.foldl_nil]
    unfold ResponseWriter.WriteHeader
    rw [if_neg (by simp [hw, hh])]
    exact ⟨rfl, hw, hh, rfl, rfl, rfl⟩
  | cons c t ih =>
    simp only [List.cons_append, List.foldl_cons]
    have hstep : rw.WriteHeader c = { rw with statusCode := c } := by
      unfold ResponseWriter.WriteHeader
      rw [if_neg (by simp [hw, hh])]
    rw [hstep]
    exact ih { rw with statusCode := c } hw hh

/-- C5 amended: `SetStatus` before commit is last-caller-wins, not
first-caller-wins: after any sequence of `WriteHeader` calls on a
pre-commit, non-hijacked writer the recorded status is the LAST
argument, and that status is what the commit emits in the status line;
calls made after commit or after hijack leave the writer unchanged. -/
theorem c5_last_setstatus_wins (env : Env) (rw : ResponseWriter) (r : HttpRequest)
    (cs : List Int) (cLast : Int)
    (hw : rw.wroteHeader = false) (hh : rw.hijacked = false) (hr : rw.req = some r)
    (hnz : (cLast == 0) = false) :
    ((cs ++ [cLast]).foldl ResponseWriter.WriteHeader rw).statusCode = cLast
    ∧ (∃ fs rest2,
        (ResponseWriter.EndResponse env
            ((cs ++ [cLast]).foldl ResponseWriter.WriteHeader rw)).2.1
          = OutItem.headerBlock r.proto cLast fs :: rest2)
    ∧ (∀ (rw2 : ResponseWriter) (code : Int),
        rw2.wroteHeader = true ∨ rw2.hijacked = true → rw2.WriteHeader code = rw2) := by
  obtain ⟨hst, hwF, hhF, hreqF, -, -⟩ := foldl_WriteHeader_state cs cLast rw hw hh
  refine ⟨hst, ?_, ?_⟩
  · have hreq2 : ((cs ++ [cLast]).foldl ResponseWriter.WriteHeader rw).req = some r := by
      rw [hreqF, hr]
    obtain ⟨fs, he⟩ := writeHeaders_emits_status env
      ((cs ++ [cLast]).foldl ResponseWriter.WriteHeader rw)
      (hGet ((cs ++ [cLast]).foldl ResponseWriter.WriteHeader rw).header
        "Transfer-Encoding" == "chunked") r hwF hreq2
    rw [hst] at he
    simp only [ResponseWriter.EndResponse, hhF, Bool.false_eq_true, if_false, hwF,
      Bool.not_false, if_true, hst, hnz]
    rw [he]
    split
    · exact ⟨fs, _, rfl⟩
    · exact ⟨fs, _, rfl⟩
  · intro rw2 code hor
    unfold ResponseWriter.WriteHeader
    rcases hor with h2 | h2 <;> simp [h2]

/-- C5 witness: `SetStatus(201); SetStatus(404)` on a fresh writer leaves
status 404 recorded. -/
theorem c5_last_setstatus_wins_witness :
    (([201, 404] : List Int).foldl ResponseWriter.WriteHeader rwFresh).statusCode = 404 := by
  have h := c5_last_setstatus_wins env0 rwFresh req0 [201] 404 rfl rfl rfl (by decide)
  simpa using h.1

/-- C4 amended: for a status in {1xx, 204, 304} set before commit,
`EndResponse` emits no `Transfer-Encoding` header and no body bytes
regardless of what was buffered, and emits no `Content-Length` header
provided the caller did not set one explicitly (an explicitly set
`Content-Length` is preserved and emitted, e.g. as 304 cache metadata). -/
theorem c4_nobody_statuses_suppress_body (env : Env) (c : Option Nat) (r : HttpRequest)
    (h : Header) (st : Int) (b : String)
    (hnb : noBodyStatus st = true) :
    ∃ fs, (ResponseWriter.EndResponse env
        { ctx := c, req := some r, header := h, statusCode := st,
          wroteHeader := false, hijacked := false, chunked := false,
          body := some b }).2.1
        = [OutItem.headerBlock r.proto st fs, OutItem.flush]
      ∧ (∀ v, ("Transfer-Encoding", v) ∉ fs)
      ∧ (hHas h "Content-Length" = false → ∀ v, ("Content-Length", v) ∉ fs) := by
  have hz := noBodyStatus_beq_zero_false hnb
  have hcond : ((hGet h "Transfer-Encoding" == "chunked") && !noBodyStatus st) = false := by
    rw [hnb]
    simp
  obtain ⟨fs, he, hTEf, hCLf, hchunk, hstEq, hwro, hbody, hreqEq, hhij⟩ :=
    writeHeaders_else env
      { ctx := c, req := some r, header := h, statusCode := st,
        wroteHeader := false, hijacked := false, chunked := false, body := some b }
      (hGet h "Transfer-Encoding" == "chunked") r rfl rfl hcond
  refine ⟨fs, ?_, hTEf, fun hcl => hCLf hcl hnb⟩
  simp only [ResponseWriter.EndResponse, Bool.false_eq_true, Bool.not_false, if_false,
    if_true, hz]
  rw [he, hchunk]
  simp only [Bool.false_eq_true, if_false, hstEq, hnb, Bool.not_true, Bool.false_and,
    List.append_nil, List.nil_append]
  rfl

/-- C4 witness: status 204 with no explicit `Content-Length` and the
buffered body `"hello"` yields a header block with no
`Transfer-Encoding`, no `Content-Length`, and no body bytes. -/
theorem c4_nobody_statuses_suppress_body_witness :
    ∃ fs, (ResponseWriter.EndResponse env0
        { ctx := some 1, req := some req0, header := [], statusCode := 204,
          wroteHeader := false, hijacked := false, chunked := false,
          body := some "hello" }).2.1
        = [OutItem.headerBlock req0.proto 204 fs, OutItem.flush]
      ∧ (∀ v, ("Transfer-Encoding", v) ∉ fs)
      ∧ (hHas ([] : Header) "Content-Length" = false → ∀ v, ("Content-Length", v) ∉ fs) :=
  c4_nobody_statuses_suppress_body env0 (some 1) req0 [] 204 "hello" (by decide)

/-- C3 amended: when a handler panics before commit on a non-hijacked
writer (and without having requested chunked framing), the recovery path
produces a response whose status line carries 500 — but the body bytes
the handler buffered via `Write` before the fault are still emitted as
the 500 response's body rather than discarded. -/
theorem c3_panic_maps_to_500 (env : Env) (c : Option Nat) (r : HttpRequest)
    (h : Header) (st : Int) (b : String)
    (hTE : (hGet h "Transfer-Encoding" == "chunked") = false) :
    ∃ fs, (recoverThenEnd env
        { ctx := c, req := some r, header := h, statusCode := st,
          wroteHeader := false, hijacked := false, chunked := false,
          body := some b }).2.1
      = OutItem.headerBlock r.proto 500 fs ::
          ((if b.length = 0 then [] else [OutItem.raw b]) ++ [OutItem.flush]) := by
  have hstep : ResponseWriter.WriteHeader
      { ctx := c, req := some r, header := h, statusCode := st,
        wroteHeader := false, hijacked := false, chunked := false,
        body := some b } 500 =
      { ctx := c, req := some r, header := h, statusCode := 500,
        wroteHeader := false, hijacked := false, chunked := false,
        body := some b } := rfl
  have hcond : ((hGet h "Transfer-Encoding" == "chunked") && !noBodyStatus 500) = false := by
    rw [hTE]
    rfl
  obtain ⟨fs, he, -, -, hchunk, hstEq, -, hbody, -, -⟩ :=
    writeHeaders_else env
      { ctx := c, req := some r, header := h, statusCode := 500,
        wroteHeader := false, hijacked := false, chunked := false, body := some b }
      (hGet h "Transfer-Encoding" == "chunked") r rfl rfl hcond
  refine ⟨fs, ?_⟩
  unfold recoverThenEnd
  rw [hstep]
  simp only [ResponseWriter.EndResponse, Bool.false_eq_true, Bool.not_false, if_false,
    if_true]
  have h500 : ((500 : Int) == 0) = false := by decide
  simp only [h500, Bool.false_eq_true, if_false]
  rw [he, hchunk]
  simp only [Bool.false_eq_true, if_false, hstEq, hbody]
  have hnb5 : noBodyStatus 500 = false := by decide
  simp only [hnb5, Bool.not_false, Bool.true_and, Option.getD_some]
  rcases Nat.eq_zero_or_pos b.length with h0 | h0
  · simp [h0]
  · simp [h0, Nat.pos_iff_ne_zero.mp h0]

/-- C3 witness: the handler buffered `"oops"` and panicked before any
commit; the emitted response has status 500 and carries `"oops"` as its
body. -/
theorem c3_panic_maps_to_500_witness :
    ∃ fs, (recoverThenEnd env0
        { ctx := some 1, req := some req0, header := [], statusCode := 0,
          wroteHeader := false, hijacked := false, chunked := false,
          body := some "oops" }).2.1
      = OutItem.headerBlock req0.proto 500 fs ::
          ((if "oops".length = 0 then [] else [OutItem.raw "oops"]) ++ [OutItem.flush]) :=
  c3_panic_maps_to_500 env0 (some 1) req0 [] 0 "oops" (by decide)

/-- C6 amended: with `Content-Length` set explicitly before the first
commit AND no explicit `Transfer-Encoding: chunked` (which would
override it), and a definite-or-default body-permitting status, neither
`EndResponse` nor `ReadFrom` emits `Transfer-Encoding: chunked`, and the
body reaches the transport as unframed blocks: `EndResponse` writes the
buffered bytes verbatim, `ReadFrom` copies the source blocks verbatim.
The code never checks that those bytes agree with the declared length. -/
theorem c6_explicit_content_length_fixed (env : Env) (c : Option Nat) (r : HttpRequest)
    (h : Header) (st : Int) (b : String) (chunks : List String)
    (hCL : hHas h "Content-Length" = true)
    (hTE : (hGet h "Transfer-Encoding" == "chunked") = false)
    (hnb : noBodyStatus (if (st == 0) = true then (200 : Int) else st) = false) :
    (∃ fs, (ResponseWriter.EndResponse env
        { ctx := c, req := some r, header := h, statusCode := st,
          wroteHeader := false, hijacked := false, chunked := false,
          body := some b }).2.1
        = OutItem.headerBlock r.proto (if (st == 0) = true then (200 : Int) else st) fs ::
            ((if b.length = 0 then [] else [OutItem.raw b]) ++ [OutItem.flush])
      ∧ ∀ v, ("Transfer-Encoding", v) ∉ fs)
    ∧ (∃ fs2, (ResponseWriter.ReadFrom env
        { ctx := c, req := some r, header := h, statusCode := st,
          wroteHeader := false, hijacked := false, chunked := false,
          body := some b } chunks).2.1
        = OutItem.headerBlock r.proto (if (st == 0) = true then (200 : Int) else st) fs2 ::
            OutItem.flush ::
            (chunks.filter (fun ch => ch.length > 0)).flatMap
              (fun ch => [OutItem.raw ch, OutItem.flush])
      ∧ ∀ v, ("Transfer-Encoding", v) ∉ fs2) := by
  have hcomm : (if (st == 0) = true then
      ({ ctx := c, req := some r, header := h, statusCode := 200,
         wroteHeader := false, hijacked := false, chunked := false,
         body := some b } : ResponseWriter)
    else
      { ctx := c, req := some r, header := h, statusCode := st,
        wroteHeader := false, hijacked := false, chunked := false,
        body := some b }) =
      { ctx := c, req := some r, header := h,
        statusCode := (if (st == 0) = true then (200 : Int) else st),
        wroteHeader := false, hijacked := false, chunked := false,
        body := some b } := by
    split <;> rfl
  constructor
  · have hcond : ((hGet h "Transfer-Encoding" == "chunked")
        && !noBodyStatus (if (st == 0) = true then (200 : Int) else st)) = false := by
      rw [hTE]
      rfl
    obtain ⟨fs, he, hTEf, -, hchunk, hstEq, -, hbody, -, -⟩ :=
      writeHeaders_else env
        { ctx := c, req := some r, header := h,
          statusCode := (if (st == 0) = true then (200 : Int) else st),
          wroteHeader := false, hijacked := false, chunked := false, body := some b }
        (hGet h "Transfer-Encoding" == "chunked") r rfl rfl hcond
    refine ⟨fs, ?_, hTEf⟩
    simp only [ResponseWriter.EndResponse, Bool.false_eq_true, Bool.not_false, if_false,
      if_true]
    rw [hcomm, he, hchunk]
    simp only [Bool.false_eq_true, if_false, hstEq, hbody, hnb, Bool.not_false,
      Bool.true_and, Option.getD_some]
    rcases Nat.eq_zero_or_pos b.length with h0 | h0
    · simp [h0]
    · simp [h0, Nat.pos_iff_ne_zero.mp h0]
  · have hcond2 : ((false : Bool)
        && !noBodyStatus (if (st == 0) = true then (200 : Int) else st)) = false := rfl
    obtain ⟨fs2, he2, hTEf2, -, hchunk2, hstEq2, -, -, -, -⟩ :=
      writeHeaders_else env
        { ctx := c, req := some r, header := h,
          statusCode := (if (st == 0) = true then (200 : Int) else st),
          wroteHeader := false, hijacked := false, chunked := false, body := some b }
        false r rfl rfl hcond2
    refine ⟨fs2, ?_, hTEf2⟩
    simp only [ResponseWriter.ReadFrom, Bool.false_eq_true, Bool.not_false, if_false,
      if_true]
    rw [hcomm]
    simp only [hCL, hTE, Bool.not_true, Bool.false_and, Bool.or_false]
    rw [he2, hchunk2]
    simp only [Bool.false_eq_true, if_false]
    rfl

/-- C6 witness: `Content-Length: 10` set explicitly, `ReadFrom` fed the
ten bytes `"0123456789"` — the output has no `Transfer-Encoding` and the
body is the unframed block, matching the repository's
`TestReadFrom_WithContentLength`. -/
theorem c6_explicit_content_length_fixed_witness :
    (∃ fs, (ResponseWriter.EndResponse env0
        { ctx := some 1, req := some req0, header := [("Content-Length", ["10"])],
          statusCode := 0, wroteHeader := false, hijacked := false, chunked := false,
          body := some "" }).2.1
        = OutItem.headerBlock req0.proto
            (if ((0 : Int) == 0) = true then (200 : Int) else 0) fs ::
            ((if "".length = 0 then [] else [OutItem.raw ""]) ++ [OutItem.flush])
      ∧ ∀ v, ("Transfer-Encoding", v) ∉ fs)
    ∧ (∃ fs2, (ResponseWriter.ReadFrom env0
        { ctx := some 1, req := some req0, header := [("Content-Length", ["10"])],
          statusCode := 0, wroteHeader := false, hijacked := false, chunked := false,
          body := some "" } ["0123456789"]).2.1
        = OutItem.headerBlock req0.proto
            (if ((0 : Int) == 0) = true then (200 : Int) else 0) fs2 ::
            OutItem.flush ::
            (["0123456789"].filter (fun ch => ch.length > 0)).flatMap
              (fun ch => [OutItem.raw ch, OutItem.flush])
      ∧ ∀ v, ("Transfer-Encoding", v) ∉ fs2) :=
  c6_explicit_content_length_fixed env0 (some 1) req0 [("Content-Length", ["10"])] 0 ""
    ["0123456789"] (by decide) (by decide) (by decide)

/-- C7 amended: on a non-hijacked writer, `Flush` commits the headers if
pending, forcing chunked mode (for a body-permitting status).  But the
buffered bytes are then ALWAYS emitted wrapped in one chunk frame —
also when the writer is already committed in fixed-length mode, where
the claim expected them verbatim — followed by a transport flush, and
the buffer is reset so a later `Flush` frames only what was buffered
since. -/
theorem c7_flush_always_chunk_frames (env : Env) (rw : ResponseWriter) (r : HttpRequest)
    (b : String) (hh : rw.hijacked = false) (hb : rw.body = some b) (hr : rw.req = some r)
    (hnb : noBodyStatus (if (rw.statusCode == 0) = true then (200 : Int)
        else rw.statusCode) = false) :
    (rw.wroteHeader = true →
      ResponseWriter.Flush env rw =
        (if b.length = 0 then (rw, [OutItem.flush])
         else ({ rw with body := some "" },
           [OutItem.raw (toHex b.length ++ "\r\n"), OutItem.raw b, OutItem.raw "\r\n",
            OutItem.flush])))
    ∧ (rw.wroteHeader = false →
        (ResponseWriter.Flush env rw).1.chunked = true
        ∧ ∃ fs, (ResponseWriter.Flush env rw).2 =
            OutItem.headerBlock r.proto
              (if (rw.statusCode == 0) = true then (200 : Int) else rw.statusCode)
              (("Transfer-Encoding", "chunked") :: fs) ::
            ((if b.length = 0 then [] else
              [OutItem.raw (toHex b.length ++ "\r\n"), OutItem.raw b,
               OutItem.raw "\r\n"]) ++ [OutItem.flush])) := by
  constructor
  · intro hw
    unfold ResponseWriter.Flush
    rw [if_neg (show ¬(rw.hijacked = true) by simp [hh])]
    simp only [hw, Bool.not_true, Bool.false_eq_true, if_false]
    simp only [hb, Option.getD_some]
    rcases Nat.eq_zero_or_pos b.length with h0 | h0
    · simp [h0]
    · simp [h0, Nat.pos_iff_ne_zero.mp h0]
  · intro hw
    have hw' : (!rw.wroteHeader) = true := by rw [hw]; rfl
    rcases Bool.eq_false_or_eq_true (rw.statusCode == 0) with hz | hz
    · -- unset status: the committing writer defaults to 200
      have hnb' : noBodyStatus (200 : Int) = false := by decide
      obtain ⟨fs, he, hchunk, hstEq, hwro, hbW, hreqW, hhijW⟩ :=
        writeHeaders_streaming env { rw with statusCode := 200 } r hw hr hnb'
      constructor
      · unfold ResponseWriter.Flush
        rw [if_neg (show ¬(rw.hijacked = true) by simp [hh])]
        simp only [hw', hz, reduceIte]
        split
        · exact hchunk
        · exact hchunk
      · refine ⟨fs, ?_⟩
        unfold ResponseWriter.Flush
        rw [if_neg (show ¬(rw.hijacked = true) by simp [hh])]
        simp only [hw', hz, reduceIte]
        rw [he, hbW,
          show ({ rw with statusCode := 200 } : ResponseWriter).body = some b from hb]
        simp only [Option.getD_some]
        rcases Nat.eq_zero_or_pos b.length with h0 | h0
        · simp [h0]
        · simp [h0, Nat.pos_iff_ne_zero.mp h0]
    · -- a definite status: the committing writer is rw itself
      have hnb' : noBodyStatus rw.statusCode = false := by
        simpa [hz] using hnb
      obtain ⟨fs, he, hchunk, hstEq, hwro, hbW, hreqW, hhijW⟩ :=
        writeHeaders_streaming env rw r hw hr hnb'
      constructor
      · unfold ResponseWriter.Flush
        rw [if_neg (show ¬(rw.hijacked = true) by simp [hh])]
        simp only [hw', hz, Bool.false_eq_true, if_false, reduceIte]
        split
        · exact hchunk
        · exact hchunk
      · refine ⟨fs, ?_⟩
        unfold ResponseWriter.Flush
        rw [if_neg (show ¬(rw.hijacked = true) by simp [hh])]
        simp only [hw', hz, Bool.false_eq_true, if_false, reduceIte]
        rw [he, hbW, hb]
        simp only [Option.getD_some]
        rcases Nat.eq_zero_or_pos b.length with h0 | h0
        · simp [h0]
        · simp [h0, Nat.pos_iff_ne_zero.mp h0]

/-- C7 witness: a writer already committed in fixed-length mode
(`chunked` false) holding the two buffered bytes `"xy"` — `Flush` emits
the chunk frame `"2\r\nxy\r\n"` and resets the buffer. -/
theorem c7_flush_always_chunk_frames_witness :
    ResponseWriter.Flush env0
        { ctx := some 1, req := some req0, header := [], statusCode := 200,
          wroteHeader := true, hijacked := false, chunked := false, body := some "xy" } =
      (if "xy".length = 0 then
        ({ ctx := some 1, req := some req0, header := [], statusCode := 200,
             wroteHeader := true, hijacked := false, chunked := false,
             body := some "xy" }, [OutItem.flush])
      else
        ({ ctx := some 1, req := some req0, header := [], statusCode := 200,
             wroteHeader := true, hijacked := false, chunked := false,
             body := some "" },
         [OutItem.raw (toHex "xy".length ++ "\r\n"), OutItem.raw "xy",
          OutItem.raw "\r\n", OutItem.flush])) :=
  (c7_flush_always_chunk_frames env0
    { ctx := some 1, req := some req0, header := [], statusCode := 200,
      wroteHeader := true, hijacked := false, chunked := false, body := some "xy" }
    req0 "xy" rfl rfl rfl (by decide)).1 rfl

end HttpOverNetpoll
